import Mathlib

/-!
Verification development for the lexical-analysis front end of the
ubel_stratum compiler (Rust sources under src/src/lexer and
src/src/error_management).

Embedding conventions:
* Source text is a `List Char`; positions are character indices.  The Rust
  code mixes byte offsets (logos spans, `position += ch.len_utf8()`, string
  slicing) with character indices (`input.chars().nth(pos)` in the
  hand-written scanners); on ASCII input the two notions coincide, and the
  embedding identifies them (so `len_utf8` becomes `1`).
* The logos automaton of `logos_lexer.rs` is embedded as an explicit
  maximal-munch matcher `matchAt` over the token/regex rules declared on
  `LogosToken`; rules are grouped by their distinct first characters, which
  realises logos longest-match/priority semantics for this rule set.
  When no rule matches (or a literal callback returns `None` after a regex
  match), logos yields an `Err` item; the `Err` span for a failed regex is
  modelled as a single-character bump, and for a failed callback as the full
  matched range, mirroring `LogosLexer::handle_error`'s inputs.
* `f32`/`f64` literal payloads are carried as the cleaned literal text
  (underscores stripped, `f`/`F` suffix trimmed): `str::parse::<f64>` cannot
  fail on text matched by the float rules, so the callback is total and no
  claim depends on the numeric value.
* Loops are fueled; each loop of the Rust code advances its cursor by at
  least one character per iteration, so fuel `input.length + 1` is never
  exhausted for the scanners.  The driver loop of `LogosLexer::tokenize`
  can revisit positions after a delegate hand-off, so the driver is run
  with an explicit fuel parameter and returns `none` when the fuel runs
  out; theorems about full runs quantify over the fuel.
-/

set_option maxRecDepth 10000

namespace UbelStratum

/-- Apostrophe / brace characters, kept out of literals for hygiene. -/
def sq : Char := Char.ofNat 39

def lbrace : Char := Char.ofNat 123

def rbrace : Char := Char.ofNat 125

def nul : Char := Char.ofNat 0

/-! ## Span and token model (src/src/lexer/token.rs) -/

/-- `Span { start, end, line, column }`; the `end` field is named `stop`
(`end` is reserved in Lean). -/
structure Span where
  start : Nat
  stop : Nat
  line : Nat
  column : Nat
deriving DecidableEq, Repr

namespace Span

def new (start stop line column : Nat) : Span := ⟨start, stop, line, column⟩

def len (s : Span) : Nat := s.stop - s.start

/-- `Span::merge`. -/
def merge (s other : Span) : Span :=
  { start := min s.start other.start
    stop := max s.stop other.stop
    line := s.line
    column := s.column }

end Span

/-- `InterpolationPart` from token.rs. -/
inductive InterpolationPart where
  | Text (s : String)
  | Expr (s : String)
deriving DecidableEq, Repr

/-- `TokenType` from token.rs.  Float payloads hold the cleaned literal
text (see the header comment). -/
inductive TokenType where
  | Fn | Let | Mut | Const
  | If | Elif | Else | Match | Where
  | For | In | While | Loop
  | Break | Continue | Return
  | Summon | From | As | Package
  | Async | Await | Task
  | Try | Catch | Fail
  | Struct | Enum | Trait | Impl
  | Pub | Edge | UnsafeKw | With | Defer
  | And | Or | Not
  | True | False | Null | SelfKw
  | Get | Set
  | TierHigh | TierMid | TierLow
  | Qubit | Hadamard | Oracle
  | IntLit (n : Int)
  | FloatLit (s : String)
  | DoubleLit (s : String)
  | StringLit (s : String)
  | InterpolatedString (parts : List InterpolationPart)
  | VerbatimString (s : String)
  | CharLit (c : Char)
  | Ident (s : String)
  | Plus | Minus | Star | Slash | Percent
  | Amp | Pipe | Caret | Tilde
  | LeftShift | RightShift
  | Equal | EqualEqual | BangEqual
  | Less | Greater | LessEqual | GreaterEqual
  | Bang | AmpAmp | PipePipe
  | PlusEqual | MinusEqual | StarEqual | SlashEqual | PercentEqual
  | AmpEqual | PipeEqual | CaretEqual
  | LeftShiftEqual | RightShiftEqual
  | Question | QuestionDot | FatArrow | ColonEqual
  | LeftParen | RightParen
  | LeftBrace | RightBrace
  | LeftBracket | RightBracket
  | Comma | Dot | Colon | Semicolon | At
  | DocComment (s : String)
  | Comment (s : String)
  | Newline
  | Eof
  | Error (msg : String)
deriving Repr

/-- `Token` from token.rs. -/
structure Token where
  kind : TokenType
  span : Span
  lexeme : String
deriving Repr

namespace Token

def new (kind : TokenType) (span : Span) (lexeme : String) : Token :=
  ⟨kind, span, lexeme⟩

/-- `Token::error`. -/
def error (message : String) (span : Span) : Token :=
  { kind := TokenType.Error message, span := span, lexeme := message }

def is_error (t : Token) : Bool :=
  match t.kind with
  | TokenType.Error _ => true
  | _ => false

end Token

/-! ## Error model (src/src/error_management/error_types/lexical_error.rs) -/

inductive StringType where
  | Normal | Interpolated | Verbatim | InterpolatedVerbatim
deriving DecidableEq, Repr

inductive LexicalError where
  | UnexpectedChar (ch : Char) (span : Span) (suggestion : Option String)
  | UnterminatedString (span : Span) (string_type : StringType)
  | UnterminatedBlockComment (span : Span) (nesting_level : Nat)
  | InvalidNumber (text : String) (span : Span) (reason : String)
  | InvalidEscape (sequence : String) (span : Span) (valid_escapes : List String)
  | InvalidInterpolation (message : String) (span : Span) (suggestion : Option String)
  | InvalidCharLiteral (content : String) (span : Span) (reason : String)
deriving DecidableEq, Repr

/-- Tag check used to state that the lexer never constructs `InvalidNumber`. -/
def LexicalError.isInvalidNumber : LexicalError → Bool
  | LexicalError.InvalidNumber _ _ _ => true
  | _ => false

/-! ## Error manager (src/src/error_management/error_manager.rs) -/

structure ErrorManager where
  lexical_errors : List LexicalError
  source : String
  max_errors : Nat
deriving DecidableEq, Repr

namespace ErrorManager

/-- `ErrorManager::new` — the cap is 100. -/
def new (source : String) : ErrorManager :=
  { lexical_errors := [], source := source, max_errors := 100 }

/-- `ErrorManager::add_lexical_error` — appends only below the cap. -/
def add_lexical_error (em : ErrorManager) (e : LexicalError) : ErrorManager :=
  if em.lexical_errors.length < em.max_errors then
    { em with lexical_errors := em.lexical_errors ++ [e] }
  else em

def has_errors (em : ErrorManager) : Bool :=
  !em.lexical_errors.isEmpty

def error_count (em : ErrorManager) : Nat :=
  em.lexical_errors.length

end ErrorManager

/-! ## Keyword table (src/src/lexer/keywords.rs) -/

def KEYWORDS : List (String × TokenType) :=
  [("fn", TokenType.Fn), ("let", TokenType.Let), ("mut", TokenType.Mut),
   ("const", TokenType.Const),
   ("if", TokenType.If), ("elif", TokenType.Elif), ("else", TokenType.Else),
   ("match", TokenType.Match), ("where", TokenType.Where), ("for", TokenType.For),
   ("in", TokenType.In), ("while", TokenType.While), ("loop", TokenType.Loop),
   ("break", TokenType.Break), ("continue", TokenType.Continue),
   ("return", TokenType.Return),
   ("summon", TokenType.Summon), ("from", TokenType.From), ("as", TokenType.As),
   ("package", TokenType.Package),
   ("async", TokenType.Async), ("await", TokenType.Await),
   ("try", TokenType.Try), ("catch", TokenType.Catch), ("fail", TokenType.Fail),
   ("struct", TokenType.Struct), ("enum", TokenType.Enum),
   ("trait", TokenType.Trait), ("impl", TokenType.Impl),
   ("pub", TokenType.Pub), ("edge", TokenType.Edge),
   ("unsafe", TokenType.UnsafeKw), ("with", TokenType.With),
   ("defer", TokenType.Defer),
   ("and", TokenType.And), ("or", TokenType.Or), ("not", TokenType.Not),
   ("true", TokenType.True), ("false", TokenType.False),
   ("null", TokenType.Null), ("self", TokenType.SelfKw),
   ("get", TokenType.Get), ("set", TokenType.Set)]

/-- `keywords::get_keyword`. -/
def get_keyword (word : String) : Option TokenType :=
  KEYWORDS.lookup word


/-! ## The logos automaton (src/src/lexer/logos_lexer.rs, `enum LogosToken`) -/

/-- The token categories produced by the derive-generated logos automaton. -/
inductive LogosToken where
  | Fn | Let | Mut | Const | If | Elif | Else | Match | Where | For | In
  | While | Loop | Break | Continue | Return | Summon | From | As | Package
  | Async | Await | Try | Catch | Fail | Struct | Enum | Trait | Impl
  | Pub | Edge | UnsafeKw | With | Defer | And | Or | Not | True | False
  | Null | SelfKw | Get | Set
  | LeftShiftEqual | RightShiftEqual | LeftShift | RightShift
  | EqualEqual | BangEqual | LessEqual | GreaterEqual | AmpAmp | PipePipe
  | QuestionDot | FatArrow | ColonEqual
  | PlusEqual | MinusEqual | StarEqual | SlashEqual | PercentEqual
  | AmpEqual | PipeEqual | CaretEqual
  | Plus | Minus | Star | Slash | Percent | Amp | Pipe | Caret | Tilde
  | Less | Greater | Bang | Question | Equal
  | LeftParen | RightParen | LeftBrace | RightBrace | LeftBracket | RightBracket
  | Comma | Dot | Colon | Semicolon | At
  | IntLit (n : Int)
  | FloatLit (s : String)
  | StringLit (s : String)
  | CharLit (c : Char)
  | Ident
  | InterpolatedVerbatimStart | InterpolatedStringStart | VerbatimStringStart
  | LineComment | DocCommentStar | DocCommentBang | BlockCommentStart
  | Newline
deriving Repr

/-- The `#token` rules attached to keyword variants of `LogosToken`
(they win equal-length ties against the `Ident` regex by priority). -/
def logosKeyword (w : String) : Option LogosToken :=
  List.lookup w
    [("fn", LogosToken.Fn), ("let", LogosToken.Let), ("mut", LogosToken.Mut),
     ("const", LogosToken.Const), ("if", LogosToken.If), ("elif", LogosToken.Elif),
     ("else", LogosToken.Else), ("match", LogosToken.Match),
     ("where", LogosToken.Where), ("for", LogosToken.For), ("in", LogosToken.In),
     ("while", LogosToken.While), ("loop", LogosToken.Loop),
     ("break", LogosToken.Break), ("continue", LogosToken.Continue),
     ("return", LogosToken.Return), ("summon", LogosToken.Summon),
     ("from", LogosToken.From), ("as", LogosToken.As),
     ("package", LogosToken.Package), ("async", LogosToken.Async),
     ("await", LogosToken.Await), ("try", LogosToken.Try),
     ("catch", LogosToken.Catch), ("fail", LogosToken.Fail),
     ("struct", LogosToken.Struct), ("enum", LogosToken.Enum),
     ("trait", LogosToken.Trait), ("impl", LogosToken.Impl),
     ("pub", LogosToken.Pub), ("edge", LogosToken.Edge),
     ("unsafe", LogosToken.UnsafeKw), ("with", LogosToken.With),
     ("defer", LogosToken.Defer), ("and", LogosToken.And),
     ("or", LogosToken.Or), ("not", LogosToken.Not),
     ("true", LogosToken.True), ("false", LogosToken.False),
     ("null", LogosToken.Null), ("self", LogosToken.SelfKw),
     ("get", LogosToken.Get), ("set", LogosToken.Set)]

/-! ### Character classes and scanning helpers -/

/-- `input.chars().nth(pos).unwrap_or(0 as char)` — also how out-of-range
reads behave in the hand-written scanners (`char_at`). -/
def charAt (s : List Char) (pos : Nat) : Char := s.getD pos nul

def isDigitC (c : Char) : Bool := '0' ≤ c ∧ c ≤ '9'

def isIdentStart (c : Char) : Bool :=
  ('a' ≤ c ∧ c ≤ 'z') ∨ ('A' ≤ c ∧ c ≤ 'Z') ∨ c = '_'

def isIdentChar (c : Char) : Bool := isIdentStart c ∨ isDigitC c

def isHexDigit (c : Char) : Bool :=
  isDigitC c ∨ ('a' ≤ c ∧ c ≤ 'f') ∨ ('A' ≤ c ∧ c ≤ 'F')

def isBinDigit (c : Char) : Bool := c = '0' ∨ c = '1'

/-- The characters skipped by `#[logos(skip r"[ \t]+")]`. -/
def isSkipWs (c : Char) : Bool := c = ' ' ∨ c = '\t'

/-- End position of the maximal run of characters satisfying `p` from `pos`. -/
def munchEnd (p : Char → Bool) (s : List Char) (pos : Nat) : Nat :=
  pos + ((s.drop pos).takeWhile p).length

/-- `s[a..b]` as characters. -/
def slice (s : List Char) (a b : Nat) : List Char := (s.drop a).take (b - a)

/-- `source[a..b]` as a string (byte slicing in the source, identical on
ASCII input). -/
def sourceSlice (s : List Char) (a b : Nat) : String := String.mk (slice s a b)

/-! ### Literal callbacks (logos_lexer.rs lines 142-210) -/

def i64Max : Nat := 9223372036854775807

def digitVal (c : Char) : Nat := c.toNat - 48

def hexVal (c : Char) : Nat :=
  if isDigitC c then c.toNat - 48
  else if 'a' ≤ c ∧ c ≤ 'f' then c.toNat - 87
  else c.toNat - 55

def stripUnderscores (l : List Char) : List Char := l.filter (fun c => ¬ c = '_')

/-- `parse_decimal`: strip `_`, `str::parse::<i64>` (overflow yields `None`,
which logos turns into an error item). -/
def parse_decimal (l : List Char) : Option Int :=
  let v := (stripUnderscores l).foldl (fun a c => a * 10 + digitVal c) 0
  if v ≤ i64Max then some (Int.ofNat v) else none

/-- `parse_hex` (the `0x` prefix is already removed by the caller). -/
def parse_hex (l : List Char) : Option Int :=
  let v := (stripUnderscores l).foldl (fun a c => a * 16 + hexVal c) 0
  if v ≤ i64Max then some (Int.ofNat v) else none

/-- `parse_binary` (the `0b` prefix is already removed by the caller). -/
def parse_binary (l : List Char) : Option Int :=
  let v := (stripUnderscores l).foldl (fun a c => a * 2 + digitVal c) 0
  if v ≤ i64Max then some (Int.ofNat v) else none

/-- `parse_float`: strip `_`, trim the `f`/`F` suffix; the payload is the
cleaned text (`str::parse::<f64>` is total on the matched shapes). -/
def parse_float (l : List Char) : String :=
  let l := stripUnderscores l
  String.mk (if charAt l (l.length - 1) = 'f' ∨ charAt l (l.length - 1) = 'F'
             then l.dropLast else l)

/-- `parse_simple_string` unescaping, on the contents between the quotes.
The unknown-escape arm keeps both characters verbatim. -/
def parse_simple_string : List Char → List Char
  | [] => []
  | '\\' :: [] => ['\\']
  | '\\' :: 'n' :: rest => '\n' :: parse_simple_string rest
  | '\\' :: 't' :: rest => '\t' :: parse_simple_string rest
  | '\\' :: 'r' :: rest => '\r' :: parse_simple_string rest
  | '\\' :: '\\' :: rest => '\\' :: parse_simple_string rest
  | '\\' :: '"' :: rest => '"' :: parse_simple_string rest
  | '\\' :: c :: rest => '\\' :: c :: parse_simple_string rest
  | c :: rest => c :: parse_simple_string rest

/-- `parse_char_literal`, on the contents between the single quotes. -/
def parse_char_literal (l : List Char) : Option Char :=
  match l with
  | '\\' :: c :: _ =>
    if c = 'n' then some '\n'
    else if c = 't' then some '\t'
    else if c = 'r' then some '\r'
    else if c = '\\' then some '\\'
    else if c = sq then some sq
    else none
  | c :: _ => some c
  | [] => none

/-- DFA for the tail of the plain-string rule `"([^"\\]|\\["\\nrt])*"`,
scanning after the opening quote: the flag is true right after a backslash,
where only the five accepted escape characters may follow; the result is
the number of characters consumed including the closing quote, `none` when
the rule does not match — only the five listed escapes are admitted. -/
def stringLitLenAux : Bool → List Char → Option Nat
  | _, [] => none
  | false, c :: rest =>
    if c = '"' then some 1
    else if c = '\\' then (stringLitLenAux true rest).map (· + 1)
    else (stringLitLenAux false rest).map (· + 1)
  | true, c :: rest =>
    if c = '"' ∨ c = '\\' ∨ c = 'n' ∨ c = 'r' ∨ c = 't' then
      (stringLitLenAux false rest).map (· + 1)
    else none

def stringLitLen (l : List Char) : Option Nat := stringLitLenAux false l

/-! ### The matcher -/

/-- Number rules: decimal / hex / binary / the two float shapes, longest
match (the shapes are distinguished by the character after the leading
digit run, so the choice below is exactly longest-match). -/
def matchNumber (s : List Char) (pos : Nat) : Except Unit LogosToken × Nat :=
  let intEnd := munchEnd (fun c => isDigitC c ∨ c = '_') s (pos + 1)
  if charAt s pos = '0' ∧ charAt s (pos + 1) = 'x' ∧ isHexDigit (charAt s (pos + 2)) then
    let e := munchEnd (fun c => isHexDigit c ∨ c = '_') s (pos + 3)
    match parse_hex (slice s (pos + 2) e) with
    | some n => (Except.ok (LogosToken.IntLit n), e)
    | none => (Except.error (), e)
  else if charAt s pos = '0' ∧ charAt s (pos + 1) = 'b' ∧ isBinDigit (charAt s (pos + 2)) then
    let e := munchEnd (fun c => isBinDigit c ∨ c = '_') s (pos + 3)
    match parse_binary (slice s (pos + 2) e) with
    | some n => (Except.ok (LogosToken.IntLit n), e)
    | none => (Except.error (), e)
  else if charAt s intEnd = '.' then
    let fe := munchEnd (fun c => isDigitC c ∨ c = '_') s (intEnd + 1)
    let e := if charAt s fe = 'f' ∨ charAt s fe = 'F' then fe + 1 else fe
    (Except.ok (LogosToken.FloatLit (parse_float (slice s pos e))), e)
  else if (charAt s intEnd = 'e' ∨ charAt s intEnd = 'E') ∧
      (isDigitC (charAt s (intEnd + 1)) ∨
       ((charAt s (intEnd + 1) = '+' ∨ charAt s (intEnd + 1) = '-') ∧
        isDigitC (charAt s (intEnd + 2)))) then
    let sp := if charAt s (intEnd + 1) = '+' ∨ charAt s (intEnd + 1) = '-'
              then intEnd + 2 else intEnd + 1
    let ee := munchEnd (fun c => isDigitC c ∨ c = '_') s (sp + 1)
    let e := if charAt s ee = 'f' ∨ charAt s ee = 'F' then ee + 1 else ee
    (Except.ok (LogosToken.FloatLit (parse_float (slice s pos e))), e)
  else
    match parse_decimal (slice s pos intEnd) with
    | some n => (Except.ok (LogosToken.IntLit n), intEnd)
    | none => (Except.error (), intEnd)

/-- Char-literal rule `'([^'\\]|\\['\\nrt])'` plus its callback.  Reads past
the end of input see `nul`, which matches no pattern character. -/
def matchChar (s : List Char) (pos : Nat) : Except Unit LogosToken × Nat :=
  let c1 := charAt s (pos + 1)
  if c1 = '\\' then
    let c2 := charAt s (pos + 2)
    if (c2 = sq ∨ c2 = '\\' ∨ c2 = 'n' ∨ c2 = 'r' ∨ c2 = 't') ∧ charAt s (pos + 3) = sq then
      match parse_char_literal (slice s (pos + 1) (pos + 3)) with
      | some c => (Except.ok (LogosToken.CharLit c), pos + 4)
      | none => (Except.error (), pos + 1)
    else (Except.error (), pos + 1)
  else if ¬ c1 = sq ∧ charAt s (pos + 2) = sq then
    match parse_char_literal (slice s (pos + 1) (pos + 2)) with
    | some c => (Except.ok (LogosToken.CharLit c), pos + 3)
    | none => (Except.error (), pos + 1)
  else (Except.error (), pos + 1)

/-- Operator and delimiter rules (longest match first, as in the
`ORDER MATTERS` block of `LogosToken`). -/
def matchOperator (s : List Char) (pos : Nat) : Except Unit LogosToken × Nat :=
  let c := charAt s pos
  let c2 := charAt s (pos + 1)
  let c3 := charAt s (pos + 2)
  if c = '<' then
    if c2 = '<' ∧ c3 = '=' then (Except.ok LogosToken.LeftShiftEqual, pos + 3)
    else if c2 = '<' then (Except.ok LogosToken.LeftShift, pos + 2)
    else if c2 = '=' then (Except.ok LogosToken.LessEqual, pos + 2)
    else (Except.ok LogosToken.Less, pos + 1)
  else if c = '>' then
    if c2 = '>' ∧ c3 = '=' then (Except.ok LogosToken.RightShiftEqual, pos + 3)
    else if c2 = '>' then (Except.ok LogosToken.RightShift, pos + 2)
    else if c2 = '=' then (Except.ok LogosToken.GreaterEqual, pos + 2)
    else (Except.ok LogosToken.Greater, pos + 1)
  else if c = '=' then
    if c2 = '=' then (Except.ok LogosToken.EqualEqual, pos + 2)
    else if c2 = '>' then (Except.ok LogosToken.FatArrow, pos + 2)
    else (Except.ok LogosToken.Equal, pos + 1)
  else if c = '!' then
    if c2 = '=' then (Except.ok LogosToken.BangEqual, pos + 2)
    else (Except.ok LogosToken.Bang, pos + 1)
  else if c = '&' then
    if c2 = '&' then (Except.ok LogosToken.AmpAmp, pos + 2)
    else if c2 = '=' then (Except.ok LogosToken.AmpEqual, pos + 2)
    else (Except.ok LogosToken.Amp, pos + 1)
  else if c = '|' then
    if c2 = '|' then (Except.ok LogosToken.PipePipe, pos + 2)
    else if c2 = '=' then (Except.ok LogosToken.PipeEqual, pos + 2)
    else (Except.ok LogosToken.Pipe, pos + 1)
  else if c = '^' then
    if c2 = '=' then (Except.ok LogosToken.CaretEqual, pos + 2)
    else (Except.ok LogosToken.Caret, pos + 1)
  else if c = '+' then
    if c2 = '=' then (Except.ok LogosToken.PlusEqual, pos + 2)
    else (Except.ok LogosToken.Plus, pos + 1)
  else if c = '-' then
    if c2 = '=' then (Except.ok LogosToken.MinusEqual, pos + 2)
    else (Except.ok LogosToken.Minus, pos + 1)
  else if c = '*' then
    if c2 = '=' then (Except.ok LogosToken.StarEqual, pos + 2)
    else (Except.ok LogosToken.Star, pos + 1)
  else if c = '%' then
    if c2 = '=' then (Except.ok LogosToken.PercentEqual, pos + 2)
    else (Except.ok LogosToken.Percent, pos + 1)
  else if c = '?' then
    if c2 = '.' then (Except.ok LogosToken.QuestionDot, pos + 2)
    else (Except.ok LogosToken.Question, pos + 1)
  else if c = ':' then
    if c2 = '=' then (Except.ok LogosToken.ColonEqual, pos + 2)
    else (Except.ok LogosToken.Colon, pos + 1)
  else if c = '~' then (Except.ok LogosToken.Tilde, pos + 1)
  else if c = '(' then (Except.ok LogosToken.LeftParen, pos + 1)
  else if c = ')' then (Except.ok LogosToken.RightParen, pos + 1)
  else if c = lbrace then (Except.ok LogosToken.LeftBrace, pos + 1)
  else if c = rbrace then (Except.ok LogosToken.RightBrace, pos + 1)
  else if c = '[' then (Except.ok LogosToken.LeftBracket, pos + 1)
  else if c = ']' then (Except.ok LogosToken.RightBracket, pos + 1)
  else if c = ',' then (Except.ok LogosToken.Comma, pos + 1)
  else if c = '.' then (Except.ok LogosToken.Dot, pos + 1)
  else if c = ';' then (Except.ok LogosToken.Semicolon, pos + 1)
  else (Except.error (), pos + 1)

/-- One automaton step at `pos` (after whitespace skipping): the matched
category (or an error) and the end of the match.  Branches are grouped by
first character; within each group longer patterns are tried first. -/
def matchAt (s : List Char) (pos : Nat) : Except Unit LogosToken × Nat :=
  let c := charAt s pos
  if isIdentStart c then
    let e := munchEnd isIdentChar s pos
    (Except.ok ((logosKeyword (String.mk (slice s pos e))).getD LogosToken.Ident), e)
  else if isDigitC c then matchNumber s pos
  else if c = '"' then
    match stringLitLen (s.drop (pos + 1)) with
    | some k =>
      let e := pos + 1 + k
      (Except.ok (LogosToken.StringLit
        (String.mk (parse_simple_string (slice s (pos + 1) (e - 1))))), e)
    | none => (Except.error (), pos + 1)
  else if c = sq then matchChar s pos
  else if c = '$' then
    if charAt s (pos + 1) = '@' ∧ charAt s (pos + 2) = '"' then
      (Except.ok LogosToken.InterpolatedVerbatimStart, pos + 3)
    else if charAt s (pos + 1) = '"' then
      (Except.ok LogosToken.InterpolatedStringStart, pos + 2)
    else (Except.error (), pos + 1)
  else if c = '@' then
    if charAt s (pos + 1) = '"' then (Except.ok LogosToken.VerbatimStringStart, pos + 2)
    else (Except.ok LogosToken.At, pos + 1)
  else if c = '/' then
    if charAt s (pos + 1) = '*' then
      if charAt s (pos + 2) = '*' then (Except.ok LogosToken.DocCommentStar, pos + 3)
      else if charAt s (pos + 2) = '!' then (Except.ok LogosToken.DocCommentBang, pos + 3)
      else (Except.ok LogosToken.BlockCommentStart, pos + 2)
    else if charAt s (pos + 1) = '/' then
      (Except.ok LogosToken.LineComment, munchEnd (fun c => ¬ c = '\n') s (pos + 2))
    else if charAt s (pos + 1) = '=' then (Except.ok LogosToken.SlashEqual, pos + 2)
    else (Except.ok LogosToken.Slash, pos + 1)
  else if c = '\n' then (Except.ok LogosToken.Newline, pos + 1)
  else matchOperator s pos

/-- `logos::Lexer::next` plus `span`/`slice`: skip `[ \t]+`, report `none`
at the end of input, otherwise the item with its (relative) span. -/
def logosNext (s : List Char) (pos : Nat) : Option (Except Unit LogosToken × Nat × Nat) :=
  let start := munchEnd isSkipWs s pos
  if start < s.length then
    let r := matchAt s start
    some (r.1, start, r.2)
  else none

/-! ## String Scanner (src/src/lexer/string_parser.rs, `StringParser`) -/

namespace StringScanner

/-- `str::trim` on the captured expression text (ASCII whitespace). -/
def isTrimWs (c : Char) : Bool := c = ' ' ∨ c = '\t' ∨ c = '\n' ∨ c = '\r'

def trimChars (l : List Char) : List Char :=
  ((l.dropWhile isTrimWs).reverse.dropWhile isTrimWs).reverse

/-- The `valid_escapes` list of the interpolated-string escape error. -/
def validEscapes : List String :=
  ["\\n", "\\t", "\\r", "\\\\", "\\\"", "\\\x7b", "\\\x7d"]

/-- One-character escape resolution inside interpolated strings; `none` is
the invalid-escape case. -/
def escapeChar (c : Char) : Option Char :=
  if c = 'n' then some '\n'
  else if c = 't' then some '\t'
  else if c = 'r' then some '\r'
  else if c = '\\' then some '\\'
  else if c = '"' then some '"'
  else if c = lbrace then some lbrace
  else if c = rbrace then some rbrace
  else none

/-- The loop of `parse_interpolation_expr` (depth starts at 1; the `\x7b`
already consumed).  Fuel only bounds the iteration count; every iteration
advances `pos`, so fuel `input.length + 1` is never exhausted (the fuel-0
arm repeats the unclosed-interpolation failure). -/
def exprLoop (input : List Char) :
    Nat → Nat → Nat → Nat → List Char → Nat →
    Except LexicalError (String × Nat × Nat × Nat)
  | 0, pos, line, column, _, _ =>
    Except.error (LexicalError.InvalidInterpolation "Unclosed interpolation expression"
      (Span.new pos pos line column) (some ("Add closing " ++ String.mk [rbrace])))
  | fuel + 1, pos, line, column, expr, depth =>
    if pos < input.length ∧ depth > 0 then
      let ch := charAt input pos
      if ch = lbrace then
        exprLoop input fuel (pos + 1) line (column + 1) (expr ++ [ch]) (depth + 1)
      else if ch = rbrace then
        let depth := depth - 1
        exprLoop input fuel (pos + 1) line (column + 1)
          (if depth > 0 then expr ++ [ch] else expr) depth
      else if ch = '\n' then
        exprLoop input fuel (pos + 1) (line + 1) 1 (expr ++ [ch]) depth
      else
        exprLoop input fuel (pos + 1) line (column + 1) (expr ++ [ch]) depth
    else
      if depth = 0 then
        Except.ok (String.mk (trimChars expr), pos, line, column)
      else
        Except.error (LexicalError.InvalidInterpolation "Unclosed interpolation expression"
          (Span.new pos pos line column) (some ("Add closing " ++ String.mk [rbrace])))

/-- `StringParser::parse_interpolation_expr`. -/
def parse_interpolation_expr (input : List Char) (fuel pos line column : Nat) :
    Except LexicalError (String × Nat × Nat × Nat) :=
  exprLoop input fuel (pos + 1) line (column + 1) [] 1

/-- The loop of `parse_interpolated_string` (the `$"` already consumed). -/
def interpLoop (input : List Char) (start_pos start_line start_column : Nat) :
    Nat → Nat → Nat → Nat → List InterpolationPart → List Char → Nat →
    Except LexicalError (Token × Nat × Nat × Nat)
  | 0, pos, _, _, _, _, _ =>
    Except.error (LexicalError.UnterminatedString
      (Span.new start_pos pos start_line start_column) StringType.Interpolated)
  | fuel + 1, pos, line, column, parts, current_text, depth =>
    if pos < input.length then
      let ch := charAt input pos
      if ch = '"' ∧ depth = 0 then
        let parts := if current_text.isEmpty then parts
                     else parts ++ [InterpolationPart.Text (String.mk current_text)]
        let pos := pos + 1
        let span := Span.new start_pos pos start_line start_column
        let lexeme := sourceSlice input start_pos pos
        Except.ok (Token.new (TokenType.InterpolatedString parts) span lexeme,
          pos, line, column + 1)
      else if ch = lbrace ∧ depth = 0 then
        let parts := if current_text.isEmpty then parts
                     else parts ++ [InterpolationPart.Text (String.mk current_text)]
        match parse_interpolation_expr input (input.length + 1) pos line column with
        | Except.error e => Except.error e
        | Except.ok (expr, pos, line, column) =>
          interpLoop input start_pos start_line start_column fuel pos line column
            (parts ++ [InterpolationPart.Expr expr]) [] depth
      else if ch = lbrace ∧ depth > 0 then
        interpLoop input start_pos start_line start_column fuel (pos + 1) line (column + 1)
          parts (current_text ++ [ch]) (depth + 1)
      else if ch = rbrace ∧ depth > 0 then
        interpLoop input start_pos start_line start_column fuel (pos + 1) line (column + 1)
          parts (current_text ++ [ch]) (depth - 1)
      else if ch = '\\' then
        let pos := pos + 1
        let column := column + 1
        if pos < input.length then
          let escaped := charAt input pos
          match escapeChar escaped with
          | some c =>
            interpLoop input start_pos start_line start_column fuel (pos + 1) line
              (column + 1) parts (current_text ++ [c]) depth
          | none =>
            Except.error (LexicalError.InvalidEscape (String.mk ['\\', escaped])
              (Span.new (pos - 1) (pos + 1) line (column - 1)) validEscapes)
        else
          interpLoop input start_pos start_line start_column fuel pos line column
            parts current_text depth
      else if ch = '\n' then
        interpLoop input start_pos start_line start_column fuel (pos + 1) (line + 1) 1
          parts (current_text ++ [ch]) depth
      else
        interpLoop input start_pos start_line start_column fuel (pos + 1) line (column + 1)
          parts (current_text ++ [ch]) depth
    else
      Except.error (LexicalError.UnterminatedString
        (Span.new start_pos pos start_line start_column) StringType.Interpolated)

/-- `StringParser::parse_interpolated_string` — the parser is constructed at
`start_pos` and first skips the two sigil characters. -/
def parse_interpolated_string (input : List Char) (fuel start_pos line column : Nat) :
    Except LexicalError (Token × Nat × Nat × Nat) :=
  interpLoop input start_pos line column fuel (start_pos + 2) line (column + 2) [] [] 0

/-- The loop of `parse_verbatim_string` (the `@"` already consumed). -/
def verbLoop (input : List Char) (start_pos start_line start_column : Nat) :
    Nat → Nat → Nat → Nat → List Char →
    Except LexicalError (Token × Nat × Nat × Nat)
  | 0, pos, _, _, _ =>
    Except.error (LexicalError.UnterminatedString
      (Span.new start_pos pos start_line start_column) StringType.Verbatim)
  | fuel + 1, pos, line, column, content =>
    if pos < input.length then
      let ch := charAt input pos
      if ch = '"' then
        if pos + 1 < input.length ∧ charAt input (pos + 1) = '"' then
          verbLoop input start_pos start_line start_column fuel (pos + 2) line
            (column + 2) (content ++ ['"'])
        else
          let pos := pos + 1
          let span := Span.new start_pos pos start_line start_column
          let lexeme := sourceSlice input start_pos pos
          Except.ok (Token.new (TokenType.VerbatimString (String.mk content)) span lexeme,
            pos, line, column + 1)
      else if ch = '\n' then
        verbLoop input start_pos start_line start_column fuel (pos + 1) (line + 1) 1
          (content ++ [ch])
      else
        verbLoop input start_pos start_line start_column fuel (pos + 1) line (column + 1)
          (content ++ [ch])
    else
      Except.error (LexicalError.UnterminatedString
        (Span.new start_pos pos start_line start_column) StringType.Verbatim)

/-- `StringParser::parse_verbatim_string`. -/
def parse_verbatim_string (input : List Char) (fuel start_pos line column : Nat) :
    Except LexicalError (Token × Nat × Nat × Nat) :=
  verbLoop input start_pos line column fuel (start_pos + 2) line (column + 2) []

/-- The loop of `parse_interpolated_verbatim_string` (the `$@"` consumed). -/
def interpVerbLoop (input : List Char) (start_pos start_line start_column : Nat) :
    Nat → Nat → Nat → Nat → List InterpolationPart → List Char →
    Except LexicalError (Token × Nat × Nat × Nat)
  | 0, pos, _, _, _, _ =>
    Except.error (LexicalError.UnterminatedString
      (Span.new start_pos pos start_line start_column) StringType.InterpolatedVerbatim)
  | fuel + 1, pos, line, column, parts, current_text =>
    if pos < input.length then
      let ch := charAt input pos
      if ch = '"' then
        if pos + 1 < input.length ∧ charAt input (pos + 1) = '"' then
          interpVerbLoop input start_pos start_line start_column fuel (pos + 2) line
            (column + 2) parts (current_text ++ ['"'])
        else
          let parts := if current_text.isEmpty then parts
                       else parts ++ [InterpolationPart.Text (String.mk current_text)]
          let pos := pos + 1
          let span := Span.new start_pos pos start_line start_column
          let lexeme := sourceSlice input start_pos pos
          Except.ok (Token.new (TokenType.InterpolatedString parts) span lexeme,
            pos, line, column + 1)
      else if ch = lbrace then
        let parts := if current_text.isEmpty then parts
                     else parts ++ [InterpolationPart.Text (String.mk current_text)]
        match parse_interpolation_expr input (input.length + 1) pos line column with
        | Except.error e => Except.error e
        | Except.ok (expr, pos, line, column) =>
          interpVerbLoop input start_pos start_line start_column fuel pos line column
            (parts ++ [InterpolationPart.Expr expr]) []
      else if ch = '\n' then
        interpVerbLoop input start_pos start_line start_column fuel (pos + 1) (line + 1) 1
          parts (current_text ++ [ch])
      else
        interpVerbLoop input start_pos start_line start_column fuel (pos + 1) line
          (column + 1) parts (current_text ++ [ch])
    else
      Except.error (LexicalError.UnterminatedString
        (Span.new start_pos pos start_line start_column) StringType.InterpolatedVerbatim)

/-- `StringParser::parse_interpolated_verbatim_string`. -/
def parse_interpolated_verbatim_string (input : List Char) (fuel start_pos line column : Nat) :
    Except LexicalError (Token × Nat × Nat × Nat) :=
  interpVerbLoop input start_pos line column fuel (start_pos + 3) line (column + 3) [] []

end StringScanner

/-! ## Comment Scanner (src/src/lexer/comment_parser.rs, `CommentParser`) -/

namespace CommentScanner

/-- The loop of `parse_block_comment` (the `/*` already consumed,
depth starts at 1). -/
def blockLoop (input : List Char) (start_pos start_line start_column : Nat) :
    Nat → Nat → Nat → Nat → List Char → Nat →
    Except LexicalError (Token × Nat × Nat × Nat)
  | 0, pos, line, column, content, depth =>
    -- fuel-0 arm mirrors the loop exit with the current state
    if depth = 0 then
      let span := Span.new start_pos pos start_line start_column
      Except.ok (Token.new (TokenType.Comment (String.mk content)) span
        (sourceSlice input start_pos pos), pos, line, column)
    else
      Except.error (LexicalError.UnterminatedBlockComment
        (Span.new start_pos pos start_line start_column) depth)
  | fuel + 1, pos, line, column, content, depth =>
    if pos < input.length ∧ depth > 0 then
      let ch := charAt input pos
      if ch = '/' ∧ pos + 1 < input.length ∧ charAt input (pos + 1) = '*' then
        blockLoop input start_pos start_line start_column fuel (pos + 2) line
          (column + 2) (content ++ ['/', '*']) (depth + 1)
      else if ch = '*' ∧ pos + 1 < input.length ∧ charAt input (pos + 1) = '/' then
        let depth := depth - 1
        blockLoop input start_pos start_line start_column fuel (pos + 2) line
          (column + 2) (if depth > 0 then content ++ ['*', '/'] else content) depth
      else if ch = '\n' then
        blockLoop input start_pos start_line start_column fuel (pos + 1) (line + 1) 1
          (content ++ [ch]) depth
      else
        blockLoop input start_pos start_line start_column fuel (pos + 1) line
          (column + 1) (content ++ [ch]) depth
    else
      if depth = 0 then
        let span := Span.new start_pos pos start_line start_column
        Except.ok (Token.new (TokenType.Comment (String.mk content)) span
          (sourceSlice input start_pos pos), pos, line, column)
      else
        Except.error (LexicalError.UnterminatedBlockComment
          (Span.new start_pos pos start_line start_column) depth)

/-- `CommentParser::parse_block_comment`. -/
def parse_block_comment (input : List Char) (fuel start_pos line column : Nat) :
    Except LexicalError (Token × Nat × Nat × Nat) :=
  blockLoop input start_pos line column fuel (start_pos + 2) line (column + 2) [] 1

/-- The loop of `parse_doc_comment` (the three-character marker consumed). -/
def docLoop (input : List Char) (start_pos start_line start_column : Nat) :
    Nat → Nat → Nat → Nat → List Char →
    Except LexicalError (Token × Nat × Nat × Nat)
  | 0, pos, _, _, _ =>
    Except.error (LexicalError.UnterminatedBlockComment
      (Span.new start_pos pos start_line start_column) 1)
  | fuel + 1, pos, line, column, content =>
    if pos < input.length then
      let ch := charAt input pos
      if ch = '*' ∧ pos + 1 < input.length ∧ charAt input (pos + 1) = '/' then
        let pos := pos + 2
        let span := Span.new start_pos pos start_line start_column
        Except.ok (Token.new
          (TokenType.DocComment (String.mk (StringScanner.trimChars content))) span
          (sourceSlice input start_pos pos), pos, line, column + 2)
      else if ch = '\n' then
        docLoop input start_pos start_line start_column fuel (pos + 1) (line + 1) 1
          (content ++ [ch])
      else
        docLoop input start_pos start_line start_column fuel (pos + 1) line (column + 1)
          (content ++ [ch])
    else
      Except.error (LexicalError.UnterminatedBlockComment
        (Span.new start_pos pos start_line start_column) 1)

/-- `CommentParser::parse_doc_comment` — `marker_len` is the length of the
`/**` or `/*!` marker (always 3). -/
def parse_doc_comment (input : List Char) (fuel marker_len start_pos line column : Nat) :
    Except LexicalError (Token × Nat × Nat × Nat) :=
  docLoop input start_pos line column fuel (start_pos + marker_len) line
    (column + marker_len) []

end CommentScanner

/-! ## Lexer driver (src/src/lexer/logos_lexer.rs, `LogosLexer`) -/

/-- The mutable state of `LogosLexer`.  `scanBase` is the start offset (in
the full input) of the slice the logos lexer was last (re)built on
(`self.logos_lex = LogosToken::lexer(&self.input[pos..])`), and `logosPos`
is the logos lexer's current cursor as an absolute offset; spans reported
by logos are relative to `scanBase`, exactly as in the source. -/
structure LexerState where
  input : List Char
  scanBase : Nat
  logosPos : Nat
  error_manager : ErrorManager
  position : Nat
  line : Nat
  column : Nat
  tokens : List Token
deriving Repr

/-- `LogosLexer::new`. -/
def LexerState.new (input : List Char) : LexerState :=
  { input := input
    scanBase := 0
    logosPos := 0
    error_manager := ErrorManager.new (String.mk input)
    position := 0
    line := 1
    column := 1
    tokens := [] }

/-- `LogosLexer::update_position` — `len_utf8` is 1 in the character
model. -/
def update_position : List Char → Nat → Nat → Nat → Nat × Nat × Nat
  | [], position, line, column => (position, line, column)
  | ch :: rest, position, line, column =>
    if ch = '\n' then update_position rest (position + 1) (line + 1) 1
    else update_position rest (position + 1) line (column + 1)

def applyUpdate (st : LexerState) (lexeme : String) : LexerState :=
  let r := update_position lexeme.data st.position st.line st.column
  { st with position := r.1, line := r.2.1, column := r.2.2 }

/-- `format!("Unexpected character: '\x7b\x7d'", ch)` (the quote written via
`sq` for hygiene). -/
def unexpectedCharMsg (ch : Char) : String :=
  "Unexpected character: " ++ String.mk [sq, ch, sq]

/-- `LogosLexer::handle_error` — `rs`/`re` is the relative span reported by
logos. -/
def handle_error (st : LexerState) (rs re : Nat) (lexeme : String) : LexerState :=
  let span := Span.new rs re st.line st.column
  let ch := lexeme.data.headD nul
  let st := { st with
    error_manager := st.error_manager.add_lexical_error
      (LexicalError.UnexpectedChar ch span
        (some "Remove this character or check for typos"))
    tokens := st.tokens ++ [Token.error (unexpectedCharMsg ch) span] }
  applyUpdate st lexeme

/-- `LogosLexer::map_logos_token`. -/
def map_logos_token (tok : LogosToken) (lexeme : String) : TokenType :=
  match tok with
  | LogosToken.Fn => TokenType.Fn
  | LogosToken.Let => TokenType.Let
  | LogosToken.Mut => TokenType.Mut
  | LogosToken.Const => TokenType.Const
  | LogosToken.If => TokenType.If
  | LogosToken.Elif => TokenType.Elif
  | LogosToken.Else => TokenType.Else
  | LogosToken.Match => TokenType.Match
  | LogosToken.Where => TokenType.Where
  | LogosToken.For => TokenType.For
  | LogosToken.In => TokenType.In
  | LogosToken.While => TokenType.While
  | LogosToken.Loop => TokenType.Loop
  | LogosToken.Break => TokenType.Break
  | LogosToken.Continue => TokenType.Continue
  | LogosToken.Return => TokenType.Return
  | LogosToken.Summon => TokenType.Summon
  | LogosToken.From => TokenType.From
  | LogosToken.As => TokenType.As
  | LogosToken.Package => TokenType.Package
  | LogosToken.Async => TokenType.Async
  | LogosToken.Await => TokenType.Await
  | LogosToken.Try => TokenType.Try
  | LogosToken.Catch => TokenType.Catch
  | LogosToken.Fail => TokenType.Fail
  | LogosToken.Struct => TokenType.Struct
  | LogosToken.Enum => TokenType.Enum
  | LogosToken.Trait => TokenType.Trait
  | LogosToken.Impl => TokenType.Impl
  | LogosToken.Pub => TokenType.Pub
  | LogosToken.Edge => TokenType.Edge
  | LogosToken.UnsafeKw => TokenType.UnsafeKw
  | LogosToken.With => TokenType.With
  | LogosToken.Defer => TokenType.Defer
  | LogosToken.And => TokenType.And
  | LogosToken.Or => TokenType.Or
  | LogosToken.Not => TokenType.Not
  | LogosToken.True => TokenType.True
  | LogosToken.False => TokenType.False
  | LogosToken.Null => TokenType.Null
  | LogosToken.SelfKw => TokenType.SelfKw
  | LogosToken.Get => TokenType.Get
  | LogosToken.Set => TokenType.Set
  | LogosToken.Plus => TokenType.Plus
  | LogosToken.Minus => TokenType.Minus
  | LogosToken.Star => TokenType.Star
  | LogosToken.Slash => TokenType.Slash
  | LogosToken.Percent => TokenType.Percent
  | LogosToken.Amp => TokenType.Amp
  | LogosToken.Pipe => TokenType.Pipe
  | LogosToken.Caret => TokenType.Caret
  | LogosToken.Tilde => TokenType.Tilde
  | LogosToken.LeftShift => TokenType.LeftShift
  | LogosToken.RightShift => TokenType.RightShift
  | LogosToken.EqualEqual => TokenType.EqualEqual
  | LogosToken.BangEqual => TokenType.BangEqual
  | LogosToken.Less => TokenType.Less
  | LogosToken.Greater => TokenType.Greater
  | LogosToken.LessEqual => TokenType.LessEqual
  | LogosToken.GreaterEqual => TokenType.GreaterEqual
  | LogosToken.Bang => TokenType.Bang
  | LogosToken.AmpAmp => TokenType.AmpAmp
  | LogosToken.PipePipe => TokenType.PipePipe
  | LogosToken.Equal => TokenType.Equal
  | LogosToken.PlusEqual => TokenType.PlusEqual
  | LogosToken.MinusEqual => TokenType.MinusEqual
  | LogosToken.StarEqual => TokenType.StarEqual
  | LogosToken.SlashEqual => TokenType.SlashEqual
  | LogosToken.PercentEqual => TokenType.PercentEqual
  | LogosToken.AmpEqual => TokenType.AmpEqual
  | LogosToken.PipeEqual => TokenType.PipeEqual
  | LogosToken.CaretEqual => TokenType.CaretEqual
  | LogosToken.LeftShiftEqual => TokenType.LeftShiftEqual
  | LogosToken.RightShiftEqual => TokenType.RightShiftEqual
  | LogosToken.Question => TokenType.Question
  | LogosToken.QuestionDot => TokenType.QuestionDot
  | LogosToken.FatArrow => TokenType.FatArrow
  | LogosToken.ColonEqual => TokenType.ColonEqual
  | LogosToken.LeftParen => TokenType.LeftParen
  | LogosToken.RightParen => TokenType.RightParen
  | LogosToken.LeftBrace => TokenType.LeftBrace
  | LogosToken.RightBrace => TokenType.RightBrace
  | LogosToken.LeftBracket => TokenType.LeftBracket
  | LogosToken.RightBracket => TokenType.RightBracket
  | LogosToken.Comma => TokenType.Comma
  | LogosToken.Dot => TokenType.Dot
  | LogosToken.Colon => TokenType.Colon
  | LogosToken.Semicolon => TokenType.Semicolon
  | LogosToken.At => TokenType.At
  | LogosToken.IntLit n => TokenType.IntLit n
  | LogosToken.FloatLit f =>
    if lexeme.endsWith "f" ∨ lexeme.endsWith "F" then TokenType.FloatLit f
    else TokenType.DoubleLit f
  | LogosToken.StringLit s => TokenType.StringLit s
  | LogosToken.CharLit c => TokenType.CharLit c
  | LogosToken.Ident =>
    (get_keyword lexeme).getD (TokenType.Ident lexeme)
  | t => TokenType.Error ("Unhandled token: " ++ (reprStr t))

/-- `LogosLexer::handle_logos_token`; `rs`/`re` is the relative span
reported by logos.  The delegated scanners receive the full input together
with the relative offset `rs`, and on success the logos lexer is rebuilt on
`input[pos..]` (`scanBase`/`logosPos` both become `pos`), exactly as in the
source. -/
def handle_logos_token (st : LexerState) (tok : LogosToken) (rs re : Nat)
    (lexeme : String) : LexerState :=
  match tok with
  | LogosToken.InterpolatedStringStart =>
    match StringScanner.parse_interpolated_string st.input (st.input.length + 1)
        rs st.line st.column with
    | Except.ok (t, p, l, c) =>
      { st with tokens := st.tokens ++ [t], position := p, line := l, column := c,
                scanBase := p, logosPos := p }
    | Except.error e =>
      { st with error_manager := st.error_manager.add_lexical_error e }
  | LogosToken.VerbatimStringStart =>
    match StringScanner.parse_verbatim_string st.input (st.input.length + 1)
        rs st.line st.column with
    | Except.ok (t, p, l, c) =>
      { st with tokens := st.tokens ++ [t], position := p, line := l, column := c,
                scanBase := p, logosPos := p }
    | Except.error e =>
      { st with error_manager := st.error_manager.add_lexical_error e }
  | LogosToken.InterpolatedVerbatimStart =>
    match StringScanner.parse_interpolated_verbatim_string st.input
        (st.input.length + 1) rs st.line st.column with
    | Except.ok (t, p, l, c) =>
      { st with tokens := st.tokens ++ [t], position := p, line := l, column := c,
                scanBase := p, logosPos := p }
    | Except.error e =>
      { st with error_manager := st.error_manager.add_lexical_error e }
  | LogosToken.BlockCommentStart =>
    match CommentScanner.parse_block_comment st.input (st.input.length + 1)
        rs st.line st.column with
    | Except.ok (_, p, l, c) =>
      -- comment tokens are not pushed to the stream
      { st with position := p, line := l, column := c, scanBase := p, logosPos := p }
    | Except.error e =>
      { st with error_manager := st.error_manager.add_lexical_error e }
  | LogosToken.DocCommentStar =>
    match CommentScanner.parse_doc_comment st.input (st.input.length + 1) 3
        rs st.line st.column with
    | Except.ok (t, p, l, c) =>
      { st with tokens := st.tokens ++ [t], position := p, line := l, column := c,
                scanBase := p, logosPos := p }
    | Except.error e =>
      { st with error_manager := st.error_manager.add_lexical_error e }
  | LogosToken.DocCommentBang =>
    match CommentScanner.parse_doc_comment st.input (st.input.length + 1) 3
        rs st.line st.column with
    | Except.ok (t, p, l, c) =>
      { st with tokens := st.tokens ++ [t], position := p, line := l, column := c,
                scanBase := p, logosPos := p }
    | Except.error e =>
      { st with error_manager := st.error_manager.add_lexical_error e }
  | LogosToken.LineComment => applyUpdate st lexeme
  | LogosToken.Newline => applyUpdate st lexeme
  | t =>
    let span := Span.new rs re st.line st.column
    let st := applyUpdate st lexeme
    let token_type := map_logos_token t lexeme
    { st with tokens := st.tokens ++ [Token.new token_type span lexeme] }

/-- One iteration of the `while let Some(...) = self.logos_lex.next()` loop:
`none` means the loop is over.  The logos lexer runs on the suffix starting
at `scanBase`, so the span it reports is relative to that suffix. -/
def lexStep (st : LexerState) : Option LexerState :=
  match logosNext (st.input.drop st.scanBase) (st.logosPos - st.scanBase) with
  | none => none
  | some (Except.ok tok, rs, re) =>
    some (handle_logos_token { st with logosPos := st.scanBase + re } tok rs re
      (String.mk (slice (st.input.drop st.scanBase) rs re)))
  | some (Except.error _, rs, re) =>
    some (handle_error { st with logosPos := st.scanBase + re } rs re
      (String.mk (slice (st.input.drop st.scanBase) rs re)))

/-- The scanning loop, fueled; `none` when the fuel is exhausted before the
loop finishes (the source loop can revisit positions after a failed or
re-anchored hand-off, so no a-priori bound is imposed). -/
def runLoop : Nat → LexerState → Option LexerState
  | 0, _ => none
  | fuel + 1, st =>
    match lexStep st with
    | none => some st
    | some st1 => runLoop fuel st1

/-- Appending the terminal Eof token after the loop. -/
def pushEof (st : LexerState) : LexerState :=
  { st with tokens := st.tokens ++
      [Token.new TokenType.Eof (Span.new st.position st.position st.line st.column) ""] }

/-- The final state of `LogosLexer::tokenize` (loop plus Eof). -/
def runFinal (fuel : Nat) (input : List Char) : Option LexerState :=
  (runLoop fuel (LexerState.new input)).map pushEof

/-- `LogosLexer::tokenize` / `lexer::tokenize` with explicit fuel for the
driver loop. -/
def tokenizeFuel (fuel : Nat) (input : List Char) :
    Option (Except ErrorManager (List Token)) :=
  (runFinal fuel input).map (fun st =>
    if st.error_manager.has_errors then Except.error st.error_manager
    else Except.ok st.tokens)

/-- `tokenize` with the default fuel, sufficient for all the concrete runs
considered below. -/
def tokenize (input : List Char) : Option (Except ErrorManager (List Token)) :=
  tokenizeFuel (input.length + 1) input

/-! ## Theorems -/

/-- Claim C7: for all spans A and B, `merge(A,B)` has start `min`, end
`max`, and keeps the first operand's line and column unchanged. -/
theorem span_merge_spec (A B : Span) :
    (A.merge B).start = min A.start B.start ∧
    (A.merge B).stop = max A.stop B.stop ∧
    (A.merge B).line = A.line ∧
    (A.merge B).column = A.column := by
  refine ⟨rfl, rfl, rfl, rfl⟩

/-- Claim C9: tokenizing the empty input succeeds with no faults and
returns exactly one token, the end-of-input token with span 0..0 at line 1,
column 1 and an empty lexeme. -/
theorem tokenize_empty_input :
    tokenize [] =
      some (Except.ok [Token.new TokenType.Eof (Span.new 0 0 1 1) ""]) := by
  rfl

/-- Claim C8: the interpolated string decomposes into exactly
Text("Hello, "), Expr("name"), Text("!"), captured raw in one
interpolated-string token (followed only by the Eof token). -/
theorem interpolated_hello_decomposition :
    tokenize ("$\"Hello, \x7bname\x7d!\"".data) =
      some (Except.ok
        [Token.new (TokenType.InterpolatedString
            [InterpolationPart.Text "Hello, ", InterpolationPart.Expr "name",
             InterpolationPart.Text "!"])
           (Span.new 0 17 1 1) "$\"Hello, \x7bname\x7d!\"",
         Token.new TokenType.Eof (Span.new 17 17 1 18) ""]) := by
  rfl

/-- Claim C2 (failing input): on the input `$""b` the identifier token `b`
is emitted with the suffix-relative span 0..1, and the source slice at that
span is `$`, not the token's lexeme `b` — the spans reported after a
delegate re-anchor are not translated back to absolute offsets. -/
theorem span_lexeme_mismatch_after_reanchor :
    tokenize ("$\"\"b".data) =
      some (Except.ok
        [Token.new (TokenType.InterpolatedString []) (Span.new 0 3 1 1) "$\"\"",
         Token.new (TokenType.Ident "b") (Span.new 0 1 1 4) "b",
         Token.new TokenType.Eof (Span.new 4 4 1 5) ""]) ∧
    ¬ sourceSlice ("$\"\"b".data) 0 1 = "b" := by
  exact ⟨rfl, by decide⟩

/-- Claim C3 (counterexample): on the input `$"#` the String Scanner fails
after consuming the whole input (its cursor stops at position 3, the end of
input), yet a second fault is recorded for the `#` at position 2 — scanning
resumed from the end of the sentinel match (position 2), not from the
position at which the delegate stopped consuming input. -/
theorem delegate_fault_rescans_consumed_input_cex :
    tokenize ("$\"#".data) =
      some (Except.error
        { lexical_errors :=
            [LexicalError.UnterminatedString (Span.new 0 3 1 1) StringType.Interpolated,
             LexicalError.UnexpectedChar '#' (Span.new 2 3 1 1)
               (some "Remove this character or check for typos")],
          source := "$\"#",
          max_errors := 100 }) ∧
    StringScanner.parse_interpolated_string ("$\"#".data) 4 0 1 1 =
      Except.error (LexicalError.UnterminatedString (Span.new 0 3 1 1)
        StringType.Interpolated) := by
  exact ⟨rfl, rfl⟩

/-- Claim C4 (counterexample): the decimal literal of nineteen nines does
not fit an `i64`; tokenizing it records a single `UnexpectedChar` fault —
no `InvalidNumber` fault carrying the lexeme and a reason is recorded. -/
theorem numeric_overflow_not_invalid_number_cex :
    tokenize (List.replicate 19 '9') =
      some (Except.error
        { lexical_errors :=
            [LexicalError.UnexpectedChar '9' (Span.new 0 19 1 1)
               (some "Remove this character or check for typos")],
          source := String.mk (List.replicate 19 '9'),
          max_errors := 100 }) ∧
    (LexicalError.UnexpectedChar '9' (Span.new 0 19 1 1)
       (some "Remove this character or check for typos")).isInvalidNumber = false := by
  exact ⟨rfl, rfl⟩

/-- Claim C5 (counterexample): the plain string `"\q"` contains the unknown
escape `\q`; tokenize does not emit a plain-string token keeping the escape
verbatim — the run fails with `UnexpectedChar` faults, because the
plain-string rule does not match text with an unknown escape. -/
theorem unknown_escape_plain_string_faults_cex :
    tokenize ("\"\\q\"".data) =
      some (Except.error
        { lexical_errors :=
            [LexicalError.UnexpectedChar '"' (Span.new 0 1 1 1)
               (some "Remove this character or check for typos"),
             LexicalError.UnexpectedChar '\\' (Span.new 1 2 1 2)
               (some "Remove this character or check for typos"),
             LexicalError.UnexpectedChar '"' (Span.new 3 4 1 4)
               (some "Remove this character or check for typos")],
          source := "\"\\q\"",
          max_errors := 100 }) := by
  rfl

/-- Claim C1: the run succeeds with the complete token sequence exactly
when the Error Manager ended empty; with at least one recorded fault the
populated Error Manager is returned instead (and the accumulated token
sequence is not part of the result). -/
theorem tokenize_success_iff_no_faults (fuel : Nat) (input : List Char)
    (st : LexerState) (h : runFinal fuel input = some st) :
    (tokenizeFuel fuel input = some (Except.ok st.tokens) ↔
      st.error_manager.lexical_errors = []) ∧
    (¬ st.error_manager.lexical_errors = [] →
      tokenizeFuel fuel input = some (Except.error st.error_manager)) := by
  have hv : tokenizeFuel fuel input =
      some (if st.error_manager.has_errors then Except.error st.error_manager
            else Except.ok st.tokens) := by
    unfold tokenizeFuel
    rw [h]
    rfl
  rw [hv]
  unfold ErrorManager.has_errors
  rcases hE : st.error_manager.lexical_errors with _ | ⟨e, es⟩ <;> simp [hE]

/-- The final state of the empty run, used to witness `runFinal` facts. -/
def emptyRunState : LexerState :=
  { input := []
    scanBase := 0
    logosPos := 0
    error_manager := { lexical_errors := [], source := "", max_errors := 100 }
    position := 0
    line := 1
    column := 1
    tokens := [Token.new TokenType.Eof (Span.new 0 0 1 1) ""] }

/-- Witness for C1 at the concrete empty input. -/
theorem tokenize_success_iff_no_faults_witness :
    runFinal 1 [] = some emptyRunState ∧
    ((tokenizeFuel 1 [] = some (Except.ok emptyRunState.tokens) ↔
       emptyRunState.error_manager.lexical_errors = []) ∧
     (¬ emptyRunState.error_manager.lexical_errors = [] →
       tokenizeFuel 1 [] = some (Except.error emptyRunState.error_manager))) :=
  ⟨rfl, tokenize_success_iff_no_faults 1 [] emptyRunState rfl⟩

/-! ## Result-shape lemmas for the hand-written scanners -/

/-- A token whose kind is not an identifier. -/
def notIdentTok (t : Token) : Prop := ∀ s, ¬ t.kind = TokenType.Ident s

theorem exprLoop_err_clean (input : List Char) :
    ∀ fuel pos line col expr depth e,
      StringScanner.exprLoop input fuel pos line col expr depth = Except.error e →
      e.isInvalidNumber = false := by
  intro fuel
  induction fuel with
  | zero =>
    intro pos line col expr depth e h
    simp only [StringScanner.exprLoop] at h
    cases h
    rfl
  | succ n ih =>
    intro pos line col expr depth e h
    simp only [StringScanner.exprLoop] at h
    split at h
    · split at h
      · exact ih _ _ _ _ _ _ h
      · split at h
        · exact ih _ _ _ _ _ _ h
        · split at h
          · exact ih _ _ _ _ _ _ h
          · exact ih _ _ _ _ _ _ h
    · split at h
      · cases h
      · cases h
        rfl

theorem parse_interpolation_expr_err_clean (input : List Char)
    (fuel pos line col : Nat) (e : LexicalError)
    (h : StringScanner.parse_interpolation_expr input fuel pos line col =
      Except.error e) : e.isInvalidNumber = false :=
  exprLoop_err_clean input fuel (pos + 1) line (col + 1) [] 1 e h

theorem interpLoop_err_clean (input : List Char) (sp sl sc : Nat) :
    ∀ fuel pos line col parts text depth e,
      StringScanner.interpLoop input sp sl sc fuel pos line col parts text depth =
        Except.error e →
      e.isInvalidNumber = false := by
  intro fuel
  induction fuel with
  | zero =>
    intro pos line col parts text depth e h
    simp only [StringScanner.interpLoop] at h
    cases h
    rfl
  | succ n ih =>
    intro pos line col parts text depth e h
    simp only [StringScanner.interpLoop] at h
    split at h
    · split at h
      · cases h
      · split at h
        · split at h
          · rename_i e1 heq
            cases h
            exact parse_interpolation_expr_err_clean input _ _ _ _ _ heq
          · exact ih _ _ _ _ _ _ _ h
        · split at h
          · exact ih _ _ _ _ _ _ _ h
          · split at h
            · exact ih _ _ _ _ _ _ _ h
            · split at h
              · split at h
                · split at h
                  · exact ih _ _ _ _ _ _ _ h
                  · cases h
                    rfl
                · exact ih _ _ _ _ _ _ _ h
              · split at h
                · exact ih _ _ _ _ _ _ _ h
                · exact ih _ _ _ _ _ _ _ h
    · cases h
      rfl

theorem interpLoop_ok_notIdent (input : List Char) (sp sl sc : Nat) :
    ∀ fuel pos line col parts text depth t p l c,
      StringScanner.interpLoop input sp sl sc fuel pos line col parts text depth =
        Except.ok (t, p, l, c) →
      notIdentTok t := by
  intro fuel
  induction fuel with
  | zero =>
    intro pos line col parts text depth t p l c h
    simp only [StringScanner.interpLoop] at h
    cases h
  | succ n ih =>
    intro pos line col parts text depth t p l c h
    simp only [StringScanner.interpLoop] at h
    split at h
    · split at h
      · cases h
        intro s hs
        cases hs
      · split at h
        · split at h
          · cases h
          · exact ih _ _ _ _ _ _ _ _ _ _ h
        · split at h
          · exact ih _ _ _ _ _ _ _ _ _ _ h
          · split at h
            · exact ih _ _ _ _ _ _ _ _ _ _ h
            · split at h
              · split at h
                · split at h
                  · exact ih _ _ _ _ _ _ _ _ _ _ h
                  · cases h
                · exact ih _ _ _ _ _ _ _ _ _ _ h
              · split at h
                · exact ih _ _ _ _ _ _ _ _ _ _ h
                · exact ih _ _ _ _ _ _ _ _ _ _ h
    · cases h

theorem verbLoop_err_clean (input : List Char) (sp sl sc : Nat) :
    ∀ fuel pos line col content e,
      StringScanner.verbLoop input sp sl sc fuel pos line col content =
        Except.error e →
      e.isInvalidNumber = false := by
  intro fuel
  induction fuel with
  | zero =>
    intro pos line col content e h
    simp only [StringScanner.verbLoop] at h
    cases h
    rfl
  | succ n ih =>
    intro pos line col content e h
    simp only [StringScanner.verbLoop] at h
    split at h
    · split at h
      · split at h
        · exact ih _ _ _ _ _ h
        · cases h
      · split at h
        · exact ih _ _ _ _ _ h
        · exact ih _ _ _ _ _ h
    · cases h
      rfl

theorem verbLoop_ok_notIdent (input : List Char) (sp sl sc : Nat) :
    ∀ fuel pos line col content t p l c,
      StringScanner.verbLoop input sp sl sc fuel pos line col content =
        Except.ok (t, p, l, c) →
      notIdentTok t := by
  intro fuel
  induction fuel with
  | zero =>
    intro pos line col content t p l c h
    simp only [StringScanner.verbLoop] at h
    cases h
  | succ n ih =>
    intro pos line col content t p l c h
    simp only [StringScanner.verbLoop] at h
    split at h
    · split at h
      · split at h
        · exact ih _ _ _ _ _ _ _ _ h
        · cases h
          intro s hs
          cases hs
      · split at h
        · exact ih _ _ _ _ _ _ _ _ h
        · exact ih _ _ _ _ _ _ _ _ h
    · cases h

theorem interpVerbLoop_err_clean (input : List Char) (sp sl sc : Nat) :
    ∀ fuel pos line col parts text e,
      StringScanner.interpVerbLoop input sp sl sc fuel pos line col parts text =
        Except.error e →
      e.isInvalidNumber = false := by
  intro fuel
  induction fuel with
  | zero =>
    intro pos line col parts text e h
    simp only [StringScanner.interpVerbLoop] at h
    cases h
    rfl
  | succ n ih =>
    intro pos line col parts text e h
    simp only [StringScanner.interpVerbLoop] at h
    split at h
    · split at h
      · split at h
        · exact ih _ _ _ _ _ _ h
        · cases h
      · split at h
        · split at h
          · rename_i e1 heq
            cases h
            exact parse_interpolation_expr_err_clean input _ _ _ _ _ heq
          · exact ih _ _ _ _ _ _ h
        · split at h
          · exact ih _ _ _ _ _ _ h
          · exact ih _ _ _ _ _ _ h
    · cases h
      rfl

theorem interpVerbLoop_ok_notIdent (input : List Char) (sp sl sc : Nat) :
    ∀ fuel pos line col parts text t p l c,
      StringScanner.interpVerbLoop input sp sl sc fuel pos line col parts text =
        Except.ok (t, p, l, c) →
      notIdentTok t := by
  intro fuel
  induction fuel with
  | zero =>
    intro pos line col parts text t p l c h
    simp only [StringScanner.interpVerbLoop] at h
    cases h
  | succ n ih =>
    intro pos line col parts text t p l c h
    simp only [StringScanner.interpVerbLoop] at h
    split at h
    · split at h
      · split at h
        · exact ih _ _ _ _ _ _ _ _ _ h
        · cases h
          intro s hs
          cases hs
      · split at h
        · split at h
          · cases h
          · exact ih _ _ _ _ _ _ _ _ _ h
        · split at h
          · exact ih _ _ _ _ _ _ _ _ _ h
          · exact ih _ _ _ _ _ _ _ _ _ h
    · cases h

theorem blockLoop_err_clean (input : List Char) (sp sl sc : Nat) :
    ∀ fuel pos line col content depth e,
      CommentScanner.blockLoop input sp sl sc fuel pos line col content depth =
        Except.error e →
      e.isInvalidNumber = false := by
  intro fuel
  induction fuel with
  | zero =>
    intro pos line col content depth e h
    simp only [CommentScanner.blockLoop] at h
    split at h
    · cases h
    · cases h
      rfl
  | succ n ih =>
    intro pos line col content depth e h
    simp only [CommentScanner.blockLoop] at h
    split at h
    · split at h
      · exact ih _ _ _ _ _ _ h
      · split at h
        · exact ih _ _ _ _ _ _ h
        · split at h
          · exact ih _ _ _ _ _ _ h
          · exact ih _ _ _ _ _ _ h
    · split at h
      · cases h
      · cases h
        rfl

theorem blockLoop_ok_notIdent (input : List Char) (sp sl sc : Nat) :
    ∀ fuel pos line col content depth t p l c,
      CommentScanner.blockLoop input sp sl sc fuel pos line col content depth =
        Except.ok (t, p, l, c) →
      notIdentTok t := by
  intro fuel
  induction fuel with
  | zero =>
    intro pos line col content depth t p l c h
    simp only [CommentScanner.blockLoop] at h
    split at h
    · cases h
      intro s hs
      cases hs
    · cases h
  | succ n ih =>
    intro pos line col content depth t p l c h
    simp only [CommentScanner.blockLoop] at h
    split at h
    · split at h
      · exact ih _ _ _ _ _ _ _ _ _ h
      · split at h
        · exact ih _ _ _ _ _ _ _ _ _ h
        · split at h
          · exact ih _ _ _ _ _ _ _ _ _ h
          · exact ih _ _ _ _ _ _ _ _ _ h
    · split at h
      · cases h
        intro s hs
        cases hs
      · cases h

theorem docLoop_err_clean (input : List Char) (sp sl sc : Nat) :
    ∀ fuel pos line col content e,
      CommentScanner.docLoop input sp sl sc fuel pos line col content =
        Except.error e →
      e.isInvalidNumber = false := by
  intro fuel
  induction fuel with
  | zero =>
    intro pos line col content e h
    simp only [CommentScanner.docLoop] at h
    cases h
    rfl
  | succ n ih =>
    intro pos line col content e h
    simp only [CommentScanner.docLoop] at h
    split at h
    · split at h
      · cases h
      · split at h
        · exact ih _ _ _ _ _ h
        · exact ih _ _ _ _ _ h
    · cases h
      rfl

theorem docLoop_ok_notIdent (input : List Char) (sp sl sc : Nat) :
    ∀ fuel pos line col content t p l c,
      CommentScanner.docLoop input sp sl sc fuel pos line col content =
        Except.ok (t, p, l, c) →
      notIdentTok t := by
  intro fuel
  induction fuel with
  | zero =>
    intro pos line col content t p l c h
    simp only [CommentScanner.docLoop] at h
    cases h
  | succ n ih =>
    intro pos line col content t p l c h
    simp only [CommentScanner.docLoop] at h
    split at h
    · split at h
      · cases h
        intro s hs
        cases hs
      · split at h
        · exact ih _ _ _ _ _ _ _ _ h
        · exact ih _ _ _ _ _ _ _ _ h
    · cases h

/-! ## Keyword table and fast-path facts -/

/-- Identifier tag test on `TokenType`. -/
def isIdentTT : TokenType → Bool
  | TokenType.Ident _ => true
  | _ => false

theorem lookup_pred {α β : Type} [BEq α] (P : β → Prop) :
    ∀ (l : List (α × β)), (∀ p ∈ l, P p.2) → ∀ a b, l.lookup a = some b → P b := by
  intro l
  induction l with
  | nil =>
    intro _ a b h
    simp [List.lookup] at h
  | cons p rest ih =>
    intro hall a b h
    rw [List.lookup] at h
    split at h
    · cases h
      exact hall p (List.mem_cons_self p rest)
    · exact ih (fun q hq => hall q (List.mem_cons_of_mem p hq)) a b h

theorem keywords_not_ident : ∀ p ∈ KEYWORDS, isIdentTT p.2 = false := by
  decide

theorem get_keyword_not_ident (w : String) (k : TokenType)
    (h : get_keyword w = some k) : isIdentTT k = false :=
  lookup_pred (fun t => isIdentTT t = false) KEYWORDS keywords_not_ident w k h

/-- Every identifier token produced by the fast-path mapping has been
looked up in the keyword table and missed. -/
theorem map_logos_token_ident (tok : LogosToken) (lexeme : String) (s : String)
    (h : map_logos_token tok lexeme = TokenType.Ident s) : get_keyword s = none := by
  cases tok <;> try (cases h)
  case FloatLit fs =>
    have h2 : (if lexeme.endsWith "f" ∨ lexeme.endsWith "F" then TokenType.FloatLit fs
               else TokenType.DoubleLit fs) = TokenType.Ident s := h
    split at h2 <;> cases h2
  case Ident =>
    have h2 : (get_keyword lexeme).getD (TokenType.Ident lexeme) = TokenType.Ident s := h
    cases hk : get_keyword lexeme with
    | none =>
      rw [hk] at h2
      cases h2
      exact hk
    | some k =>
      rw [hk, Option.getD_some] at h2
      subst h2
      have hni := get_keyword_not_ident lexeme (TokenType.Ident s) hk
      simp [isIdentTT] at hni

/-! ## Shape of one driver step -/

theorem parse_interpolated_string_err_clean (input : List Char) (fuel sp l c : Nat)
    (e : LexicalError)
    (h : StringScanner.parse_interpolated_string input fuel sp l c = Except.error e) :
    e.isInvalidNumber = false :=
  interpLoop_err_clean input sp l c fuel (sp + 2) l (c + 2) [] [] 0 e h

theorem parse_interpolated_string_ok_notIdent (input : List Char) (fuel sp l c : Nat)
    (t : Token) (p li co : Nat)
    (h : StringScanner.parse_interpolated_string input fuel sp l c =
      Except.ok (t, p, li, co)) : notIdentTok t :=
  interpLoop_ok_notIdent input sp l c fuel (sp + 2) l (c + 2) [] [] 0 t p li co h

theorem parse_verbatim_string_err_clean (input : List Char) (fuel sp l c : Nat)
    (e : LexicalError)
    (h : StringScanner.parse_verbatim_string input fuel sp l c = Except.error e) :
    e.isInvalidNumber = false :=
  verbLoop_err_clean input sp l c fuel (sp + 2) l (c + 2) [] e h

theorem parse_verbatim_string_ok_notIdent (input : List Char) (fuel sp l c : Nat)
    (t : Token) (p li co : Nat)
    (h : StringScanner.parse_verbatim_string input fuel sp l c =
      Except.ok (t, p, li, co)) : notIdentTok t :=
  verbLoop_ok_notIdent input sp l c fuel (sp + 2) l (c + 2) [] t p li co h

theorem parse_interpolated_verbatim_err_clean (input : List Char) (fuel sp l c : Nat)
    (e : LexicalError)
    (h : StringScanner.parse_interpolated_verbatim_string input fuel sp l c =
      Except.error e) : e.isInvalidNumber = false :=
  interpVerbLoop_err_clean input sp l c fuel (sp + 3) l (c + 3) [] [] e h

theorem parse_interpolated_verbatim_ok_notIdent (input : List Char) (fuel sp l c : Nat)
    (t : Token) (p li co : Nat)
    (h : StringScanner.parse_interpolated_verbatim_string input fuel sp l c =
      Except.ok (t, p, li, co)) : notIdentTok t :=
  interpVerbLoop_ok_notIdent input sp l c fuel (sp + 3) l (c + 3) [] [] t p li co h

theorem parse_block_comment_err_clean (input : List Char) (fuel sp l c : Nat)
    (e : LexicalError)
    (h : CommentScanner.parse_block_comment input fuel sp l c = Except.error e) :
    e.isInvalidNumber = false :=
  blockLoop_err_clean input sp l c fuel (sp + 2) l (c + 2) [] 1 e h

theorem parse_doc_comment_err_clean (input : List Char) (fuel ml sp l c : Nat)
    (e : LexicalError)
    (h : CommentScanner.parse_doc_comment input fuel ml sp l c = Except.error e) :
    e.isInvalidNumber = false :=
  docLoop_err_clean input sp l c fuel (sp + ml) l (c + ml) [] e h

theorem parse_doc_comment_ok_notIdent (input : List Char) (fuel ml sp l c : Nat)
    (t : Token) (p li co : Nat)
    (h : CommentScanner.parse_doc_comment input fuel ml sp l c =
      Except.ok (t, p, li, co)) : notIdentTok t :=
  docLoop_ok_notIdent input sp l c fuel (sp + ml) l (c + ml) [] t p li co h

/-- Identifier tokens in the output stream always missed the keyword
table. -/
def tokOk (t : Token) : Prop :=
  ∀ s, t.kind = TokenType.Ident s → get_keyword s = none

theorem tokOk_of_notIdent {t : Token} (h : notIdentTok t) : tokOk t :=
  fun s hs => absurd hs (h s)

/-- What one driver step may do to the error manager and the token list:
the error manager is unchanged or extended through `add_lexical_error` with
a fault that is not `InvalidNumber`, and the token list is unchanged or
extended with one token satisfying `tokOk`. -/
def stepShape (st st' : LexerState) : Prop :=
  (st'.error_manager = st.error_manager ∨
    ∃ e, e.isInvalidNumber = false ∧
      st'.error_manager = st.error_manager.add_lexical_error e) ∧
  (st'.tokens = st.tokens ∨
    ∃ t, tokOk t ∧ st'.tokens = st.tokens ++ [t])

theorem handle_logos_token_shape (st : LexerState) (tok : LogosToken)
    (rs re : Nat) (lexeme : String) :
    stepShape st (handle_logos_token st tok rs re lexeme) := by
  cases tok
  case InterpolatedStringStart =>
    rcases hp : StringScanner.parse_interpolated_string st.input
        (st.input.length + 1) rs st.line st.column with e | ⟨t, p, l, c⟩
    · refine ⟨Or.inr ⟨e, parse_interpolated_string_err_clean _ _ _ _ _ e hp, ?_⟩,
        Or.inl ?_⟩ <;> simp only [handle_logos_token, hp]
    · refine ⟨Or.inl ?_,
        Or.inr ⟨t, tokOk_of_notIdent
          (parse_interpolated_string_ok_notIdent _ _ _ _ _ t p l c hp), ?_⟩⟩ <;>
        simp only [handle_logos_token, hp]
  case VerbatimStringStart =>
    rcases hp : StringScanner.parse_verbatim_string st.input
        (st.input.length + 1) rs st.line st.column with e | ⟨t, p, l, c⟩
    · refine ⟨Or.inr ⟨e, parse_verbatim_string_err_clean _ _ _ _ _ e hp, ?_⟩,
        Or.inl ?_⟩ <;> simp only [handle_logos_token, hp]
    · refine ⟨Or.inl ?_,
        Or.inr ⟨t, tokOk_of_notIdent
          (parse_verbatim_string_ok_notIdent _ _ _ _ _ t p l c hp), ?_⟩⟩ <;>
        simp only [handle_logos_token, hp]
  case InterpolatedVerbatimStart =>
    rcases hp : StringScanner.parse_interpolated_verbatim_string st.input
        (st.input.length + 1) rs st.line st.column with e | ⟨t, p, l, c⟩
    · refine ⟨Or.inr ⟨e, parse_interpolated_verbatim_err_clean _ _ _ _ _ e hp, ?_⟩,
        Or.inl ?_⟩ <;> simp only [handle_logos_token, hp]
    · refine ⟨Or.inl ?_,
        Or.inr ⟨t, tokOk_of_notIdent
          (parse_interpolated_verbatim_ok_notIdent _ _ _ _ _ t p l c hp), ?_⟩⟩ <;>
        simp only [handle_logos_token, hp]
  case BlockCommentStart =>
    rcases hp : CommentScanner.parse_block_comment st.input
        (st.input.length + 1) rs st.line st.column with e | ⟨t, p, l, c⟩
    · refine ⟨Or.inr ⟨e, parse_block_comment_err_clean _ _ _ _ _ e hp, ?_⟩,
        Or.inl ?_⟩ <;> simp only [handle_logos_token, hp]
    · refine ⟨Or.inl ?_, Or.inl ?_⟩ <;> simp only [handle_logos_token, hp]
  case DocCommentStar =>
    rcases hp : CommentScanner.parse_doc_comment st.input
        (st.input.length + 1) 3 rs st.line st.column with e | ⟨t, p, l, c⟩
    · refine ⟨Or.inr ⟨e, parse_doc_comment_err_clean _ _ _ _ _ _ e hp, ?_⟩,
        Or.inl ?_⟩ <;> simp only [handle_logos_token, hp]
    · refine ⟨Or.inl ?_,
        Or.inr ⟨t, tokOk_of_notIdent
          (parse_doc_comment_ok_notIdent _ _ _ _ _ _ t p l c hp), ?_⟩⟩ <;>
        simp only [handle_logos_token, hp]
  case DocCommentBang =>
    rcases hp : CommentScanner.parse_doc_comment st.input
        (st.input.length + 1) 3 rs st.line st.column with e | ⟨t, p, l, c⟩
    · refine ⟨Or.inr ⟨e, parse_doc_comment_err_clean _ _ _ _ _ _ e hp, ?_⟩,
        Or.inl ?_⟩ <;> simp only [handle_logos_token, hp]
    · refine ⟨Or.inl ?_,
        Or.inr ⟨t, tokOk_of_notIdent
          (parse_doc_comment_ok_notIdent _ _ _ _ _ _ t p l c hp), ?_⟩⟩ <;>
        simp only [handle_logos_token, hp]
  case LineComment => exact ⟨Or.inl rfl, Or.inl rfl⟩
  case Newline => exact ⟨Or.inl rfl, Or.inl rfl⟩
  all_goals
    refine ⟨Or.inl rfl, Or.inr ⟨_, fun s hs => ?_, rfl⟩⟩
  all_goals
    simp only [Token.new] at hs
  all_goals
    exact map_logos_token_ident _ lexeme s hs

theorem handle_error_shape (st : LexerState) (rs re : Nat) (lexeme : String) :
    stepShape st (handle_error st rs re lexeme) := by
  constructor
  · exact Or.inr ⟨LexicalError.UnexpectedChar (lexeme.data.headD nul)
      (Span.new rs re st.line st.column)
      (some "Remove this character or check for typos"), rfl, rfl⟩
  · refine Or.inr ⟨Token.error (unexpectedCharMsg (lexeme.data.headD nul))
      (Span.new rs re st.line st.column), fun s hs => ?_, rfl⟩
    cases hs

theorem lexStep_shape (st st' : LexerState) (h : lexStep st = some st') :
    stepShape st st' := by
  unfold lexStep at h
  split at h
  · cases h
  · cases h
    exact handle_logos_token_shape _ _ _ _ _
  · cases h
    exact handle_error_shape _ _ _ _

/-! ## Run-level invariants -/

theorem runLoop_preserves (P : LexerState → Prop)
    (hstep : ∀ st st', lexStep st = some st' → P st → P st') :
    ∀ fuel st st', runLoop fuel st = some st' → P st → P st' := by
  intro fuel
  induction fuel with
  | zero =>
    intro st st' h _
    simp [runLoop] at h
  | succ n ih =>
    intro st st' h hp
    rw [runLoop] at h
    split at h
    · cases h
      exact hp
    · rename_i st1 heq
      exact ih st1 st' h (hstep st st1 heq hp)

theorem add_max_eq (em : ErrorManager) (e : LexicalError) :
    (em.add_lexical_error e).max_errors = em.max_errors := by
  unfold ErrorManager.add_lexical_error
  split <;> rfl

theorem add_len_le (em : ErrorManager) (e : LexicalError)
    (hmax : em.max_errors = 100) (hlen : em.lexical_errors.length ≤ 100) :
    (em.add_lexical_error e).lexical_errors.length ≤ 100 := by
  unfold ErrorManager.add_lexical_error
  split
  · rename_i hlt
    rw [hmax] at hlt
    simp only [List.length_append, List.length_cons, List.length_nil]
    omega
  · exact hlen

theorem add_clean (em : ErrorManager) (e1 : LexicalError)
    (hclean : ∀ e ∈ em.lexical_errors, e.isInvalidNumber = false)
    (h1 : e1.isInvalidNumber = false) :
    ∀ e ∈ (em.add_lexical_error e1).lexical_errors, e.isInvalidNumber = false := by
  unfold ErrorManager.add_lexical_error
  split
  · intro e he
    simp only [List.mem_append, List.mem_singleton] at he
    rcases he with he | rfl
    · exact hclean e he
    · exact h1
  · exact hclean

/-- The bounded-collector invariant, preserved by every driver step. -/
def emBounded (st : LexerState) : Prop :=
  st.error_manager.max_errors = 100 ∧ st.error_manager.lexical_errors.length ≤ 100

theorem lexStep_emBounded (st st' : LexerState) (h : lexStep st = some st')
    (hb : emBounded st) : emBounded st' := by
  rcases (lexStep_shape st st' h).1 with heq | ⟨e, _, heq⟩
  · unfold emBounded at hb ⊢
    rw [heq]
    exact hb
  · unfold emBounded at hb ⊢
    rw [heq]
    exact ⟨(add_max_eq _ _).trans hb.1, add_len_le _ _ hb.1 hb.2⟩

theorem runFinal_decomp (fuel : Nat) (input : List Char) (st : LexerState)
    (h : runFinal fuel input = some st) :
    ∃ st1, runLoop fuel (LexerState.new input) = some st1 ∧ st = pushEof st1 := by
  unfold runFinal at h
  cases hr : runLoop fuel (LexerState.new input) with
  | none =>
    rw [hr] at h
    cases h
  | some st1 =>
    rw [hr] at h
    cases h
    exact ⟨st1, rfl, rfl⟩

theorem runFinal_emBounded (fuel : Nat) (input : List Char) (st : LexerState)
    (h : runFinal fuel input = some st) :
    st.error_manager.lexical_errors.length ≤ 100 := by
  obtain ⟨st1, hr, rfl⟩ := runFinal_decomp fuel input st h
  have hb : emBounded st1 :=
    runLoop_preserves emBounded lexStep_emBounded fuel (LexerState.new input) st1 hr
      ⟨rfl, by simp [LexerState.new, ErrorManager.new]⟩
  exact hb.2

theorem lexStep_clean (st st' : LexerState) (h : lexStep st = some st')
    (hc : ∀ e ∈ st.error_manager.lexical_errors, e.isInvalidNumber = false) :
    ∀ e ∈ st'.error_manager.lexical_errors, e.isInvalidNumber = false := by
  rcases (lexStep_shape st st' h).1 with heq | ⟨e1, he1, heq⟩
  · rw [heq]
    exact hc
  · rw [heq]
    exact add_clean _ _ hc he1

theorem runFinal_clean (fuel : Nat) (input : List Char) (st : LexerState)
    (h : runFinal fuel input = some st) :
    ∀ e ∈ st.error_manager.lexical_errors, e.isInvalidNumber = false := by
  obtain ⟨st1, hr, rfl⟩ := runFinal_decomp fuel input st h
  exact runLoop_preserves
    (fun s => ∀ e ∈ s.error_manager.lexical_errors, e.isInvalidNumber = false)
    lexStep_clean fuel (LexerState.new input) st1 hr (by simp [LexerState.new, ErrorManager.new])

theorem lexStep_tokOk (st st' : LexerState) (h : lexStep st = some st')
    (hc : ∀ t ∈ st.tokens, tokOk t) : ∀ t ∈ st'.tokens, tokOk t := by
  rcases (lexStep_shape st st' h).2 with heq | ⟨t1, ht1, heq⟩
  · rw [heq]
    exact hc
  · rw [heq]
    intro t ht
    simp only [List.mem_append, List.mem_singleton] at ht
    rcases ht with ht | rfl
    · exact hc t ht
    · exact ht1

theorem runFinal_tokOk (fuel : Nat) (input : List Char) (st : LexerState)
    (h : runFinal fuel input = some st) : ∀ t ∈ st.tokens, tokOk t := by
  obtain ⟨st1, hr, rfl⟩ := runFinal_decomp fuel input st h
  have h1 : ∀ t ∈ st1.tokens, tokOk t :=
    runLoop_preserves (fun s => ∀ t ∈ s.tokens, tokOk t) lexStep_tokOk fuel
      (LexerState.new input) st1 hr (by simp [LexerState.new])
  intro t ht
  simp only [pushEof, List.mem_append, List.mem_singleton] at ht
  rcases ht with ht | rfl
  · exact h1 t ht
  · intro s hs
    cases hs

theorem tokenizeFuel_ok_decomp (fuel : Nat) (input : List Char) (toks : List Token)
    (h : tokenizeFuel fuel input = some (Except.ok toks)) :
    ∃ st, runFinal fuel input = some st ∧ toks = st.tokens := by
  unfold tokenizeFuel at h
  cases hr : runFinal fuel input with
  | none =>
    rw [hr] at h
    cases h
  | some st =>
    rw [hr] at h
    rw [Option.map_some'] at h
    split at h
    · simp at h
    · refine ⟨st, rfl, ?_⟩
      cases h
      rfl

theorem tokenizeFuel_err_decomp (fuel : Nat) (input : List Char) (em : ErrorManager)
    (h : tokenizeFuel fuel input = some (Except.error em)) :
    ∃ st, runFinal fuel input = some st ∧ em = st.error_manager := by
  unfold tokenizeFuel at h
  cases hr : runFinal fuel input with
  | none =>
    rw [hr] at h
    cases h
  | some st =>
    rw [hr] at h
    rw [Option.map_some'] at h
    split at h
    · refine ⟨st, rfl, ?_⟩
      cases h
      rfl
    · simp at h

/-- Claim C10: the output token sequence never contains an identifier token
whose text is a reserved keyword spelling — every automaton identifier
match is looked up in the keyword table first. -/
theorem no_keyword_identifier_tokens (fuel : Nat) (input : List Char)
    (toks : List Token) (h : tokenizeFuel fuel input = some (Except.ok toks)) :
    ∀ t ∈ toks, ∀ s, t.kind = TokenType.Ident s → get_keyword s = none := by
  obtain ⟨st, hr, rfl⟩ := tokenizeFuel_ok_decomp fuel input toks h
  exact runFinal_tokOk fuel input st hr

/-- Witness for C10 at the concrete input `x`. -/
theorem no_keyword_identifier_tokens_witness :
    tokenizeFuel 2 ['x'] = some (Except.ok
      [Token.new (TokenType.Ident "x") (Span.new 0 1 1 1) "x",
       Token.new TokenType.Eof (Span.new 1 1 1 2) ""]) ∧
    (∀ t ∈ [Token.new (TokenType.Ident "x") (Span.new 0 1 1 1) "x",
            Token.new TokenType.Eof (Span.new 1 1 1 2) ""],
       ∀ s, t.kind = TokenType.Ident s → get_keyword s = none) :=
  ⟨rfl, no_keyword_identifier_tokens 2 ['x']
    [Token.new (TokenType.Ident "x") (Span.new 0 1 1 1) "x",
     Token.new TokenType.Eof (Span.new 1 1 1 2) ""] rfl⟩

/-- Claim C4 (amended): a numeric literal overflowing 64-bit signed range
surfaces as an `UnexpectedChar` fault carrying the first character of the
lexeme and a generic suggestion, the pass is not aborted (the Error
Manager is returned as the structured failure outcome), and no
`InvalidNumber` fault is ever recorded by any run. -/
theorem numeric_overflow_unexpected_char :
    tokenize (List.replicate 19 '9') =
      some (Except.error
        { lexical_errors :=
            [LexicalError.UnexpectedChar '9' (Span.new 0 19 1 1)
               (some "Remove this character or check for typos")],
          source := String.mk (List.replicate 19 '9'),
          max_errors := 100 }) ∧
    (∀ fuel input em, tokenizeFuel fuel input = some (Except.error em) →
      ∀ e ∈ em.lexical_errors, e.isInvalidNumber = false) := by
  constructor
  · rfl
  · intro fuel input em h
    obtain ⟨st, hr, rfl⟩ := tokenizeFuel_err_decomp fuel input em h
    exact runFinal_clean fuel input st hr

/-- The Error Manager produced by the overflowing-literal run. -/
def overflowEm : ErrorManager :=
  { lexical_errors :=
      [LexicalError.UnexpectedChar '9' (Span.new 0 19 1 1)
         (some "Remove this character or check for typos")],
    source := String.mk (List.replicate 19 '9'),
    max_errors := 100 }

/-- Witness for C4 at the overflowing input. -/
theorem numeric_overflow_unexpected_char_witness :
    tokenizeFuel 20 (List.replicate 19 '9') = some (Except.error overflowEm) ∧
    (∀ e ∈ overflowEm.lexical_errors, e.isInvalidNumber = false) :=
  ⟨rfl, numeric_overflow_unexpected_char.2 20 (List.replicate 19 '9') overflowEm rfl⟩

/-- Observation of a failed run's fault count. -/
def resultErrorCount : Option (Except ErrorManager (List Token)) → Option Nat
  | some (Except.error em) => some em.error_count
  | _ => none

/-- Claim C6: `add_lexical_error` appends strictly below the cap of 100 and
silently drops at the cap; every finished run's fault count is at most 100;
and the run on 101 independent defects ends with exactly 100 recorded
faults. -/
theorem error_cap_100 :
    (∀ (em : ErrorManager) (e : LexicalError), em.max_errors = 100 →
      ((em.lexical_errors.length < 100 →
         (em.add_lexical_error e).lexical_errors = em.lexical_errors ++ [e]) ∧
       (¬ em.lexical_errors.length < 100 → em.add_lexical_error e = em))) ∧
    (∀ fuel input st, runFinal fuel input = some st →
      st.error_manager.error_count ≤ 100) ∧
    resultErrorCount (tokenize (List.replicate 101 '#')) = some 100 := by
  refine ⟨?_, ?_, ?_⟩
  · intro em e hmax
    constructor
    · intro hlt
      unfold ErrorManager.add_lexical_error
      rw [if_pos (by rw [hmax]; exact hlt)]
    · intro hge
      unfold ErrorManager.add_lexical_error
      rw [if_neg (by rw [hmax]; exact hge)]
  · intro fuel input st h
    exact runFinal_emBounded fuel input st h
  · rfl

/-- Witness for C6, discharging the cap hypotheses at concrete managers. -/
theorem error_cap_100_witness :
    ((ErrorManager.new "").lexical_errors.length < 100 →
      ((ErrorManager.new "").add_lexical_error
          (LexicalError.UnterminatedString (Span.new 0 0 1 1) StringType.Normal)).lexical_errors =
        (ErrorManager.new "").lexical_errors ++
          [LexicalError.UnterminatedString (Span.new 0 0 1 1) StringType.Normal]) ∧
    emptyRunState.error_manager.error_count ≤ 100 :=
  ⟨(error_cap_100.1 (ErrorManager.new "")
      (LexicalError.UnterminatedString (Span.new 0 0 1 1) StringType.Normal) rfl).1,
   error_cap_100.2.1 1 [] emptyRunState rfl⟩

/-- Claim C3 (amended): when a delegated scanner fails, the fault is handed
to `add_lexical_error` and the automaton resumes from its own position at
the end of the sentinel match — not from the delegate's cursor — leaving
tokens, position bookkeeping and the re-anchor base unchanged.  Stated for
the two cited delegates (interpolated strings and block comments). -/
theorem delegate_fault_resumes_at_sentinel_end (st : LexerState) (rs re : Nat)
    (e : LexicalError) :
    (logosNext (st.input.drop st.scanBase) (st.logosPos - st.scanBase) =
        some (Except.ok LogosToken.InterpolatedStringStart, rs, re) →
      StringScanner.parse_interpolated_string st.input (st.input.length + 1) rs
          st.line st.column = Except.error e →
      lexStep st = some { st with
        logosPos := st.scanBase + re,
        error_manager := st.error_manager.add_lexical_error e }) ∧
    (logosNext (st.input.drop st.scanBase) (st.logosPos - st.scanBase) =
        some (Except.ok LogosToken.BlockCommentStart, rs, re) →
      CommentScanner.parse_block_comment st.input (st.input.length + 1) rs
          st.line st.column = Except.error e →
      lexStep st = some { st with
        logosPos := st.scanBase + re,
        error_manager := st.error_manager.add_lexical_error e }) := by
  constructor <;>
    · intro hn hp
      unfold lexStep
      rw [hn]
      simp only [handle_logos_token, hp]

/-- Witness for C3 at the concrete inputs `$"#` and `/*x`. -/
theorem delegate_fault_resumes_at_sentinel_end_witness :
    lexStep (LexerState.new ("$\"#".data)) =
      some { LexerState.new ("$\"#".data) with
        logosPos := 2,
        error_manager := (ErrorManager.new "$\"#").add_lexical_error
          (LexicalError.UnterminatedString (Span.new 0 3 1 1)
            StringType.Interpolated) } ∧
    lexStep (LexerState.new ("/*x".data)) =
      some { LexerState.new ("/*x".data) with
        logosPos := 2,
        error_manager := (ErrorManager.new "/*x").add_lexical_error
          (LexicalError.UnterminatedBlockComment (Span.new 0 3 1 1) 1) } :=
  ⟨(delegate_fault_resumes_at_sentinel_end (LexerState.new ("$\"#".data)) 0 2
      (LexicalError.UnterminatedString (Span.new 0 3 1 1)
        StringType.Interpolated)).1 rfl rfl,
   (delegate_fault_resumes_at_sentinel_end (LexerState.new ("/*x".data)) 0 2
      (LexicalError.UnterminatedBlockComment (Span.new 0 3 1 1) 1)).2 rfl rfl⟩

/-- Claim C5 (amended): a backslash followed by a character outside the
accepted set \x7bn, t, r, backslash, quote\x7d makes the automaton's
plain-string rule fail to match (no plain-string token with the escape kept
verbatim is produced); tokenizing such a literal records `UnexpectedChar`
faults and the run fails. -/
theorem unknown_escape_rejected_by_string_rule :
    (∀ (pre post : List Char) (c : Char),
      (∀ a ∈ pre, ¬ a = '"' ∧ ¬ a = '\\') →
      ¬ (c = '"' ∨ c = '\\' ∨ c = 'n' ∨ c = 'r' ∨ c = 't') →
      stringLitLen (pre ++ '\\' :: c :: post) = none) ∧
    tokenize ("\"a\\qb\"".data) =
      some (Except.error
        { lexical_errors :=
            [LexicalError.UnexpectedChar '"' (Span.new 0 1 1 1)
               (some "Remove this character or check for typos"),
             LexicalError.UnexpectedChar '\\' (Span.new 2 3 1 3)
               (some "Remove this character or check for typos"),
             LexicalError.UnexpectedChar '"' (Span.new 5 6 1 6)
               (some "Remove this character or check for typos")],
          source := "\"a\\qb\"",
          max_errors := 100 }) := by
  constructor
  · intro pre post c
    induction pre with
    | nil =>
      intro _ hc
      show stringLitLenAux false ([] ++ '\\' :: c :: post) = none
      simp [stringLitLenAux, hc]
    | cons a pre2 ih =>
      intro hpre hc
      obtain ⟨ha1, ha2⟩ := hpre a (List.mem_cons_self a _)
      have hrec : stringLitLenAux false (pre2 ++ '\\' :: c :: post) = none :=
        ih (fun x hx => hpre x (List.mem_cons_of_mem a hx)) hc
      show stringLitLenAux false ((a :: pre2) ++ '\\' :: c :: post) = none
      simp [stringLitLenAux, ha1, ha2, hrec]
  · rfl

/-- Witness for C5, instantiating the matching-failure lemma at the
interior of `"a\qb"`. -/
theorem unknown_escape_rejected_by_string_rule_witness :
    (∀ a ∈ ['a'], ¬ a = '"' ∧ ¬ a = '\\') ∧
    ¬ ('q' = '"' ∨ 'q' = '\\' ∨ 'q' = 'n' ∨ 'q' = 'r' ∨ 'q' = 't') ∧
    stringLitLen (['a'] ++ '\\' :: 'q' :: ['b', '"']) = none :=
  ⟨by decide, by decide,
   unknown_escape_rejected_by_string_rule.1 ['a'] ['b', '"'] 'q'
     (by decide) (by decide)⟩

end UbelStratum
